import Mathlib

/-!
# Verification of the MitreMCPClient protocol client

Shallow embedding of `src/clients/python/mini-mcp-client.py`: the
`MitreMCPClient` class (session bootstrap, JSON-RPC request/response
correlation, dual-mode response parsing of plain JSON vs SSE-framed JSON)
and theorems about its operations `initialize_session`, `call_tool`,
`close` and `_parse_sse_response`.

HTTP transport is abstracted by an oracle (`TransportResult`): each POST
either fails at the network level or yields a concrete `HttpResponse`.
Python exceptions are modelled by the inductive `PyExc`, with their Python
classes as `PyExcClass`.
-/

/-- JSON values as decoded by Python's `json.loads`: objects are ordered
association lists of string keys (lookup follows dict semantics: a later
duplicate key wins). -/
inductive Json where
  | null : Json
  | bool : Bool → Json
  | num : Int → Json
  | str : String → Json
  | arr : List Json → Json
  | obj : List (String × Json) → Json

/-- The opening-brace character, written by code point. -/
def lbrace : Char := Char.ofNat 123

/-- The closing-brace character, written by code point. -/
def rbrace : Char := Char.ofNat 125

/-- JSON whitespace characters. -/
def jsonWs (c : Char) : Bool :=
  c = ' ' || c = '\t' || c = '\n' || c = '\r'

/-- Drop leading JSON whitespace. -/
def skipWs (l : List Char) : List Char := l.dropWhile jsonWs

/-- ASCII digit test. -/
def isDig (c : Char) : Bool := 48 ≤ c.toNat && c.toNat ≤ 57

/-- Leading run of digits and the rest. -/
def takeDigits (l : List Char) : List Char × List Char :=
  (l.takeWhile isDig, l.dropWhile isDig)

/-- Digits to a natural number. -/
def digitsToNat (l : List Char) : Nat :=
  l.foldl (fun a c => a * 10 + (c.toNat - 48)) 0

/-- Parse the contents of a JSON string after the opening quote, returning
the decoded characters and the remainder after the closing quote. Handles
the escape sequences used in this development. -/
def parseStrChars : Nat → List Char → Option (List Char × List Char)
  | 0, _ => none
  | _, [] => none
  | fuel + 1, c :: rest =>
    if c = '"' then some ([], rest)
    else if c = '\\' then
      match rest with
      | [] => none
      | e :: rest2 =>
        let dec : Option Char :=
          if e = '"' then some '"'
          else if e = '\\' then some '\\'
          else if e = '/' then some '/'
          else if e = 'n' then some '\n'
          else if e = 't' then some '\t'
          else if e = 'r' then some '\r'
          else none
        match dec with
        | some d => (parseStrChars fuel rest2).map (fun p => (d :: p.1, p.2))
        | none => none
    else (parseStrChars fuel rest).map (fun p => (c :: p.1, p.2))

/-- Parsing modes for the recursive-descent JSON parser: a value, the
elements of an array after `[`, or the members of an object after the
opening brace. -/
inductive PMode where
  | val : PMode
  | arrLoop : List Json → PMode
  | objLoop : List (String × Json) → PMode

/-- Fueled recursive-descent JSON parser (model of the grammar accepted by
Python's `json.loads`, restricted to the fragment exercised here: `null`,
booleans, integer numbers, strings, arrays, objects). Returns the value
and the unconsumed remainder. -/
def parseJ : Nat → PMode → List Char → Option (Json × List Char)
  | 0, _, _ => none
  | fuel + 1, PMode.val, l =>
    match skipWs l with
    | [] => none
    | c :: rest =>
      if c = '"' then
        (parseStrChars (fuel + 1) rest).map (fun p => (Json.str ⟨p.1⟩, p.2))
      else if c = lbrace then
        match skipWs rest with
        | c2 :: rest2 =>
          if c2 = rbrace then some (Json.obj [], rest2)
          else parseJ fuel (PMode.objLoop []) rest
        | [] => none
      else if c = '[' then
        match skipWs rest with
        | c2 :: rest2 =>
          if c2 = ']' then some (Json.arr [], rest2)
          else parseJ fuel (PMode.arrLoop []) rest
        | [] => none
      else if c = 'n' then
        match rest with
        | 'u' :: 'l' :: 'l' :: r => some (Json.null, r)
        | _ => none
      else if c = 't' then
        match rest with
        | 'r' :: 'u' :: 'e' :: r => some (Json.bool true, r)
        | _ => none
      else if c = 'f' then
        match rest with
        | 'a' :: 'l' :: 's' :: 'e' :: r => some (Json.bool false, r)
        | _ => none
      else if c = '-' then
        match takeDigits rest with
        | ([], _) => none
        | (ds, r) => some (Json.num (-(digitsToNat ds : Int)), r)
      else if isDig c then
        match takeDigits rest with
        | (ds, r) => some (Json.num (digitsToNat (c :: ds)), r)
      else none
  | fuel + 1, PMode.arrLoop acc, l =>
    match parseJ fuel PMode.val l with
    | none => none
    | some (v, r) =>
      match skipWs r with
      | [] => none
      | c :: r2 =>
        if c = ',' then parseJ fuel (PMode.arrLoop (acc ++ [v])) r2
        else if c = ']' then some (Json.arr (acc ++ [v]), r2)
        else none
  | fuel + 1, PMode.objLoop acc, l =>
    match skipWs l with
    | [] => none
    | c :: rest =>
      if c = '"' then
        match parseStrChars (fuel + 1) rest with
        | none => none
        | some (k, r) =>
          match skipWs r with
          | [] => none
          | c2 :: r2 =>
            if c2 = ':' then
              match parseJ fuel PMode.val r2 with
              | none => none
              | some (v, r3) =>
                match skipWs r3 with
                | [] => none
                | c3 :: r4 =>
                  if c3 = ',' then
                    parseJ fuel (PMode.objLoop (acc ++ [(⟨k⟩, v)])) r4
                  else if c3 = rbrace then
                    some (Json.obj (acc ++ [(⟨k⟩, v)]), r4)
                  else none
            else none
      else none

/-- Model of Python's `json.loads`: parse a complete JSON document;
`none` models a raised `json.JSONDecodeError` (trailing non-whitespace is
rejected, as in Python). -/
def json_loads (s : String) : Option Json :=
  match parseJ (2 * s.data.length + 2) PMode.val s.data with
  | none => none
  | some (v, rest) => if skipWs rest = [] then some v else none

/-- Python default whitespace for `str.strip` (ASCII subset). -/
def isPySpace (c : Char) : Bool :=
  c = ' ' || c = '\t' || c = '\n' || c = '\r' || c = Char.ofNat 11 || c = Char.ofNat 12

/-- Model of Python's `str.strip()`: drop leading and trailing whitespace. -/
def pyStripChars (l : List Char) : List Char :=
  ((l.dropWhile isPySpace).reverse.dropWhile isPySpace).reverse

/-- Model of Python's `str.split('\n')`. -/
def splitOnNl : List Char → List (List Char)
  | [] => [[]]
  | c :: cs =>
    let r := splitOnNl cs
    if c = '\n' then [] :: r
    else
      match r with
      | [] => [[c]]
      | ln :: lns => (c :: ln) :: lns

/-- The fixed SSE data marker `"data: "` (mini-mcp-client.py line 111). -/
def dataMarker : List Char := "data: ".data

/-- Character-level body of `_parse_sse_response` (lines 107-116): strip the
text, split on newlines, keep the lines starting with `"data: "`, drop the
six marker characters of each, and concatenate in order. -/
def sseDataChars (l : List Char) : List Char :=
  (((splitOnNl (pyStripChars l)).filter
      (fun ln => dataMarker.isPrefixOf ln)).map (fun ln => ln.drop 6)).flatten

/-- The concatenated `data:` payload extracted from an SSE body
(`json_data` at line 116 of mini-mcp-client.py). -/
def parse_sse_data (s : String) : String := ⟨sseDataChars s.data⟩

/-- `MitreMCPClient._parse_sse_response` (lines 98-121): extract the
`data:` payload and parse it as JSON; `none` is a raised
`json.JSONDecodeError`. -/
def parse_sse_response (s : String) : Option Json := json_loads (parse_sse_data s)

/-- Is `pat` a substring of `l` starting at some position (Python's `in`
operator on strings)? -/
def containsFrom (pat : List Char) : List Char → Bool
  | [] => pat.isEmpty
  | c :: t => pat.isPrefixOf (c :: t) || containsFrom pat t

/-- Python's `pat in s` substring test. -/
def strContains (s pat : String) : Bool := containsFrom pat.data s.data

/-- Lower-case a string (httpx header names are case-insensitive). -/
def lowerStr (s : String) : String := ⟨s.data.map Char.toLower⟩

/-- `response.headers.get(name)`: case-insensitive header lookup in httpx. -/
def headersGet (hs : List (String × String)) (name : String) : Option String :=
  (hs.find? (fun p => lowerStr p.1 == lowerStr name)).map (fun p => p.2)

/-- `response.headers.get(name, d)`: lookup with a default. -/
def headersGetD (hs : List (String × String)) (name d : String) : String :=
  (headersGet hs name).getD d

/-- Python truthiness of `Optional[str]`: `None` and the empty string are
falsy (`if not self.session_id` at line 155, `if self.session_id` at 165). -/
def pyTruthy : Option String → Bool
  | none => false
  | some s => !s.isEmpty

/-- An HTTP response as seen by the client: status code, headers, body. -/
structure HttpResponse where
  status : Nat
  headers : List (String × String)
  body : String
deriving DecidableEq

/-- Outcome of one POST: a network-level failure (connection refused,
timeout — an `httpx.TransportError`), or a served response. -/
inductive TransportResult where
  | netFail : TransportResult
  | resp : HttpResponse → TransportResult
deriving DecidableEq

/-- Python exception classes that the client code can raise. -/
inductive PyExcClass where
  | cHTTPError : PyExcClass
  | cValueError : PyExcClass
  | cJSONDecodeError : PyExcClass
  | cAttributeError : PyExcClass
  | cTypeError : PyExcClass
deriving DecidableEq

/-- Python exceptions raised by the client: `httpx.HTTPError` (with the
status for an `HTTPStatusError`, `none` for a network-level failure),
`ValueError` with its message, `json.JSONDecodeError`, and the
`AttributeError` / `TypeError` of degenerate envelope shapes. -/
inductive PyExc where
  | httpErr : Option Nat → PyExc
  | valueErr : String → PyExc
  | jsonDecodeErr : PyExc
  | attrErr : PyExc
  | typeErr : PyExc
deriving DecidableEq

/-- The Python class of each raised exception. `json.JSONDecodeError` is a
subclass of `ValueError` in Python, but its class is distinct: a caller
distinguishes them with exact-type checks or ordered `except` clauses. -/
def PyExc.cls : PyExc → PyExcClass
  | PyExc.httpErr _ => PyExcClass.cHTTPError
  | PyExc.valueErr _ => PyExcClass.cValueError
  | PyExc.jsonDecodeErr => PyExcClass.cJSONDecodeError
  | PyExc.attrErr => PyExcClass.cAttributeError
  | PyExc.typeErr => PyExcClass.cTypeError

/-- `raise_for_status` succeeds exactly on 2xx statuses. -/
def is2xx (s : Nat) : Bool := 200 ≤ s && s < 300

/-- The mutable state of a `MitreMCPClient` instance (`__init__`,
lines 28-34): the request-id counter, the optional session token, and
whether an `httpx.AsyncClient` has been created. -/
structure ClientState where
  request_id : Nat
  session_id : Option String
  http_client : Bool
deriving DecidableEq

/-- A freshly constructed client: `request_id = 0`, `session_id = None`,
`http_client = None`. -/
def initialClient : ClientState := ⟨0, none, false⟩

/-- `MitreMCPClient.close` (lines 92-96): release the HTTP client if one
exists and clear the handle. -/
def close (st : ClientState) : ClientState :=
  if st.http_client then { st with http_client := false } else st

/-- Python `dict` lookup for decoded JSON objects: with duplicate keys the
later occurrence wins (as in `json.loads`). -/
def dictLookup (fields : List (String × Json)) (k : String) : Option Json :=
  match fields with
  | [] => none
  | (k2, v) :: rest =>
    match dictLookup rest k with
    | some v2 => some v2
    | none => if k2 == k then some v else none

/-- Python `str()` of a decoded JSON value, as interpolated by the f-string
at lines 201-203. Scalar cases are exact; `str()` of a decoded list or
dict (Python `repr`) is not modelled — no theorem depends on those cases. -/
def pyStr : Json → String
  | Json.null => "None"
  | Json.bool true => "True"
  | Json.bool false => "False"
  | Json.num n => toString n
  | Json.str s => s
  | Json.arr _ => "<list repr not modelled>"
  | Json.obj _ => "<dict repr not modelled>"

/-- Lines 198-205 of `call_tool`: `if "error" in result: ... raise
ValueError(f"JSON-RPC Error {code}: {message}") ... return result`.
For a dict, `in` is key membership and `result["error"]` the (last-wins)
value; `error.get` on a non-dict raises `AttributeError`; `in` on a
string is a substring test and on a list element membership, after which
`result["error"]` raises `TypeError`; `in` on a scalar raises `TypeError`
at once. -/
def checkErrorField (result : Json) : Except PyExc Json :=
  match result with
  | Json.obj fields =>
    match dictLookup fields "error" with
    | some errVal =>
      match errVal with
      | Json.obj efields =>
        Except.error (PyExc.valueErr
          ("JSON-RPC Error " ++ pyStr ((dictLookup efields "code").getD Json.null)
            ++ ": " ++ pyStr ((dictLookup efields "message").getD Json.null)))
      | _ => Except.error PyExc.attrErr
    | none => Except.ok result
  | Json.str s => if strContains s "error" then Except.error PyExc.typeErr else Except.ok result
  | Json.arr xs =>
    if xs.any (fun j => match j with | Json.str s => s == "error" | _ => false)
    then Except.error PyExc.typeErr else Except.ok result
  | _ => Except.error PyExc.typeErr

/-- Lines 189-196 of `call_tool`: response-format dispatch. The content
type defaults to the empty string when the header is absent; if it
contains `"text/event-stream"` the body goes through
`_parse_sse_response`, otherwise through `response.json()`. -/
def dispatchBody (r : HttpResponse) : Option Json :=
  let content_type := headersGetD r.headers "content-type" ""
  if strContains content_type "text/event-stream" then parse_sse_response r.body
  else json_loads r.body

/-- `MitreMCPClient.initialize_session` (lines 46-90), with the POST's
outcome supplied by the oracle `tr`. The counter is incremented first
(line 48); the `httpx.AsyncClient` is created if absent (73-74); on a
network failure the raised `httpx` error propagates (session untouched);
on a response the session header is stored (line 83) and then
`raise_for_status()` (line 90) raises on any non-2xx status. -/
def initialize_session (st : ClientState) (tr : TransportResult) :
    ClientState × Except PyExc Unit :=
  let st1 : ClientState := { st with request_id := st.request_id + 1 }
  let st2 : ClientState := { st1 with http_client := true }
  match tr with
  | TransportResult.netFail => (st2, Except.error (PyExc.httpErr none))
  | TransportResult.resp r =>
    let st3 : ClientState := { st2 with session_id := headersGet r.headers "mcp-session-id" }
    if is2xx r.status then (st3, Except.ok ())
    else (st3, Except.error (PyExc.httpErr (some r.status)))

/-- Result of one `call_tool` invocation: the client state afterwards,
whether `initialize_session` was triggered, the id placed in the
`tools/call` request envelope (line 148), whether the tool POST was
reached, and the returned value or raised exception. -/
structure CallOutput where
  state : ClientState
  initCalled : Bool
  toolEnvelopeId : Nat
  toolSent : Bool
  result : Except PyExc Json

/-- The environment of one `call_tool` invocation: the outcome the server
gives to the initialization POST (if one is made) and to the tool POST. -/
structure CallEnv where
  initRes : TransportResult
  toolRes : TransportResult
deriving DecidableEq

/-- Lines 173-205 of `call_tool`: create the HTTP client if needed, POST
the envelope, `raise_for_status`, dispatch on the content type, and
inspect the parsed envelope for an error field. -/
def call_tool_exchange (st : ClientState) (tr : TransportResult)
    (rid : Nat) (ic : Bool) : CallOutput :=
  let st1 : ClientState := { st with http_client := true }
  match tr with
  | TransportResult.netFail => ⟨st1, ic, rid, true, Except.error (PyExc.httpErr none)⟩
  | TransportResult.resp r =>
    if is2xx r.status then
      match dispatchBody r with
      | none => ⟨st1, ic, rid, true, Except.error PyExc.jsonDecodeErr⟩
      | some result => ⟨st1, ic, rid, true, checkErrorField result⟩
    else ⟨st1, ic, rid, true, Except.error (PyExc.httpErr (some r.status))⟩

/-- `MitreMCPClient.call_tool` (lines 123-218): increment the counter and
stamp the envelope id (lines 144-151), lazily run `initialize_session`
when no truthy session token is held (155-156) — an exception raised
there propagates through the `except` clauses, which re-raise — then
perform the tool exchange. -/
def call_tool (st : ClientState) (env : CallEnv) : CallOutput :=
  let rid := st.request_id + 1
  let st1 : ClientState := { st with request_id := rid }
  if pyTruthy st.session_id then
    call_tool_exchange st1 env.toolRes rid false
  else
    match initialize_session st1 env.initRes with
    | (st2, Except.error e) => ⟨st2, true, rid, false, Except.error e⟩
    | (st2, Except.ok _) => call_tool_exchange st2 env.toolRes rid true

/-- Sequential `call_tool` invocations on one client instance, each with
its own transport environment; collects every call's output in order. -/
def callOutputs (st : ClientState) : List CallEnv → List CallOutput
  | [] => []
  | e :: rest =>
    let o := call_tool st e
    o :: callOutputs o.state rest

/-- A 2xx initialization response that carries a session header. -/
def respInitWithSession : HttpResponse := ⟨200, [("mcp-session-id", "abc")], ""⟩

/-- A 2xx initialization response with no session header. -/
def respInitNoSession : HttpResponse := ⟨200, [], ""⟩

/-- A non-2xx initialization response that nevertheless carries a session
header. -/
def respInit500WithSession : HttpResponse := ⟨500, [("mcp-session-id", "abc")], ""⟩

/-- A 2xx JSON tool response whose envelope has no error field. -/
def respToolOk : HttpResponse :=
  ⟨200, [("content-type", "application/json")], "\x7b\"result\": 1\x7d"⟩

/-- The spec's protocol-error scenario: a 2xx JSON tool response whose
envelope carries `error.code = -32601`, `error.message = "Method not
found"`. -/
def respToolErr : HttpResponse :=
  ⟨200, [("content-type", "application/json")],
    "\x7b\"jsonrpc\": \"2.0\", \"id\": 1, \"error\": \x7b\"code\": -32601, \"message\": \"Method not found\"\x7d\x7d"⟩

/-- A 2xx SSE tool response whose declared event-stream body carries no
well-formed JSON payload. -/
def respToolMalformedSse : HttpResponse :=
  ⟨200, [("content-type", "text/event-stream")], "event: message\ndata: not json\n"⟩

/-- Environment of a call against a server that issues a session token and
then answers the tool call successfully. -/
def envSession : CallEnv := ⟨TransportResult.resp respInitWithSession, TransportResult.resp respToolOk⟩

/-- Environment of a call against a server that never issues a session
token but answers the tool call successfully. -/
def envNoSession : CallEnv := ⟨TransportResult.resp respInitNoSession, TransportResult.resp respToolOk⟩

/-- A non-2xx initialization response with no session header. -/
def respInit500NoSession : HttpResponse := ⟨500, [], ""⟩

/-- A 2xx SSE tool response carrying a well-formed JSON payload. -/
def respToolSseOk : HttpResponse :=
  ⟨200, [("content-type", "text/event-stream")], "event: message\ndata: \x7b\"result\": 1\x7d"⟩

/-- A 2xx tool response with no content-type header at all. -/
def respToolNoContentType : HttpResponse := ⟨200, [], "\x7b\"result\": 1\x7d"⟩

/-- A client that already holds a truthy session token. -/
def sessionClient : ClientState := ⟨0, some "s", true⟩

/-- The decoded envelope of `respToolErr`. -/
def errEnvelopeFields : List (String × Json) :=
  [("jsonrpc", Json.str "2.0"), ("id", Json.num 1),
   ("error", Json.obj [("code", Json.num (-32601)), ("message", Json.str "Method not found")])]

/-- A tool-POST outcome on which `call_tool` returns successfully: a 2xx
response whose dispatched body parses to an object with no error field. -/
def goodToolResp : TransportResult → Bool
  | TransportResult.netFail => false
  | TransportResult.resp r =>
    is2xx r.status &&
      (match dispatchBody r with
       | some (Json.obj fields) => (dictLookup fields "error").isNone
       | _ => false)

/-- A call environment of a compliant server that never issues a session
header: the initialization POST succeeds (2xx) without an
`mcp-session-id` header, and the tool POST succeeds. -/
def noSessionOkEnv (e : CallEnv) : Bool :=
  (match e.initRes with
   | TransportResult.netFail => false
   | TransportResult.resp r =>
     is2xx r.status && (headersGet r.headers "mcp-session-id").isNone)
  && goodToolResp e.toolRes

/-- A multi-line SSE frame whose two `data:` suffixes concatenate to a
compact JSON document. -/
def sseMultiBody : String := "event: message\ndata: \x7b\"a\": 1,\ndata:  \"b\": 2\x7d"

/-- The compact JSON document carried by `sseMultiBody`. -/
def sseCompactDoc : String := "\x7b\"a\": 1, \"b\": 2\x7d"

/-- Unfolded form of the data marker. -/
theorem dataMarker_eq : dataMarker = ['d', 'a', 't', 'a', ':', ' '] := rfl

/-- The tool exchange stamps the given envelope id into its output. -/
theorem exchange_toolEnvelopeId (st : ClientState) (tr : TransportResult)
    (rid : Nat) (ic : Bool) :
    (call_tool_exchange st tr rid ic).toolEnvelopeId = rid := by
  cases tr with
  | netFail => rfl
  | resp r =>
    simp only [call_tool_exchange]
    split
    · split <;> rfl
    · rfl

/-- The tool exchange never touches the request-id counter. -/
theorem exchange_request_id (st : ClientState) (tr : TransportResult)
    (rid : Nat) (ic : Bool) :
    (call_tool_exchange st tr rid ic).state.request_id = st.request_id := by
  cases tr with
  | netFail => rfl
  | resp r =>
    simp only [call_tool_exchange]
    split
    · split <;> rfl
    · rfl

/-- The tool exchange never touches the session token. -/
theorem exchange_session_id (st : ClientState) (tr : TransportResult)
    (rid : Nat) (ic : Bool) :
    (call_tool_exchange st tr rid ic).state.session_id = st.session_id := by
  cases tr with
  | netFail => rfl
  | resp r =>
    simp only [call_tool_exchange]
    split
    · split <;> rfl
    · rfl

/-- The tool exchange reports the initialization flag it is given. -/
theorem exchange_initCalled (st : ClientState) (tr : TransportResult)
    (rid : Nat) (ic : Bool) :
    (call_tool_exchange st tr rid ic).initCalled = ic := by
  cases tr with
  | netFail => rfl
  | resp r =>
    simp only [call_tool_exchange]
    split
    · split <;> rfl
    · rfl

/-- `initialize_session` increments the request counter by exactly one, on
every outcome. -/
theorem init_request_id (st : ClientState) (tr : TransportResult) :
    (initialize_session st tr).1.request_id = st.request_id + 1 := by
  cases tr with
  | netFail => rfl
  | resp r =>
    simp only [initialize_session]
    split <;> rfl

/-- After `initialize_session` on a served response, the session token is
whatever the `mcp-session-id` header said — assigned before the status
check. -/
theorem init_session_id_resp (st : ClientState) (r : HttpResponse) :
    (initialize_session st (TransportResult.resp r)).1.session_id
      = headersGet r.headers "mcp-session-id" := by
  simp only [initialize_session]
  split <;> rfl

/-- A network-level failure during the initialization POST leaves the
session token untouched. -/
theorem init_session_id_netFail (st : ClientState) :
    (initialize_session st TransportResult.netFail).1.session_id = st.session_id := rfl

/-- The envelope id stamped by `call_tool` is always the incremented
counter, whatever the transport does. -/
theorem call_tool_toolEnvelopeId (st : ClientState) (e : CallEnv) :
    (call_tool st e).toolEnvelopeId = st.request_id + 1 := by
  simp only [call_tool]
  split
  · exact exchange_toolEnvelopeId ..
  · split
    · rfl
    · exact exchange_toolEnvelopeId ..

/-- Every `call_tool` invocation leaves the counter strictly above its
entry value (one higher without initialization, two with it), on every
outcome, including failures. -/
theorem call_tool_request_id_lower (st : ClientState) (e : CallEnv) :
    st.request_id + 1 ≤ (call_tool st e).state.request_id := by
  simp only [call_tool]
  split
  · rw [exchange_request_id]
  · split
    · next st2 e2 heq =>
      have h1 : st2.request_id = st.request_id + 1 + 1 := by
        have h2 := init_request_id { st with request_id := st.request_id + 1 } e.initRes
        rw [heq] at h2
        exact h2
      simp only [h1]
      omega
    · next st2 u heq =>
      rw [exchange_request_id]
      have h1 : st2.request_id = st.request_id + 1 + 1 := by
        have h2 := init_request_id { st with request_id := st.request_id + 1 } e.initRes
        rw [heq] at h2
        exact h2
      omega

/-- With a truthy session token, `call_tool` never runs the
initialization exchange, so the token survives unchanged. -/
theorem call_tool_session_of_truthy (st : ClientState) (e : CallEnv)
    (h : pyTruthy st.session_id = true) :
    (call_tool st e).state.session_id = st.session_id := by
  simp only [call_tool, h, if_true]
  exact exchange_session_id ..

/-- `call_tool` triggers `initialize_session` exactly when the session
token held at entry is falsy. -/
theorem call_tool_initCalled (st : ClientState) (e : CallEnv) :
    (call_tool st e).initCalled = !(pyTruthy st.session_id) := by
  simp only [call_tool]
  cases h : pyTruthy st.session_id with
  | true => simp only [if_true, exchange_initCalled, Bool.not_true]
  | false =>
    simp only [Bool.false_eq_true, if_false, Bool.not_false]
    split
    · rfl
    · exact exchange_initCalled ..

/-- Every output of a run of sequential calls has an envelope id strictly
above the counter the run started from. -/
theorem callOutputs_id_gt (envs : List CallEnv) (st : ClientState) :
    ∀ o ∈ callOutputs st envs, st.request_id < o.toolEnvelopeId := by
  induction envs generalizing st with
  | nil => simp [callOutputs]
  | cons e rest ih =>
    intro o ho
    simp only [callOutputs, List.mem_cons] at ho
    rcases ho with rfl | hmem
    · rw [call_tool_toolEnvelopeId]
      omega
    · have h1 := ih (call_tool st e).state o hmem
      have h2 := call_tool_request_id_lower st e
      omega

/-- Envelope ids are pairwise strictly increasing along any run of
sequential calls. -/
theorem callOutputs_pairwise (envs : List CallEnv) (st : ClientState) :
    (callOutputs st envs).Pairwise
      (fun a b => a.toolEnvelopeId < b.toolEnvelopeId) := by
  induction envs generalizing st with
  | nil => simp [callOutputs]
  | cons e rest ih =>
    simp only [callOutputs]
    rw [List.pairwise_cons]
    refine ⟨?_, ih _⟩
    intro o ho
    have h1 := callOutputs_id_gt rest (call_tool st e).state o ho
    have h2 := call_tool_request_id_lower st e
    have h3 := call_tool_toolEnvelopeId st e
    omega

/-- C2 counterexample: on a client that establishes a session on the first
call, the second `call_tool` invocation sends a tool-call envelope with
id 3, not 2 — `initialize_session` consumed id 2 from the same counter —
so the claim "the Nth call_tool invocation sends an envelope whose id
equals N" is false at N = 2. -/
theorem second_call_envelope_id_counterexample :
    (call_tool (call_tool initialClient envSession).state envSession).toolEnvelopeId = 3 ∧
    (call_tool (call_tool initialClient envSession).state envSession).toolEnvelopeId ≠ 2 := by
  exact ⟨rfl, by decide⟩

/-- C2 (amended): request ids carried by tool-call envelopes strictly
increase across sequential calls on one client instance and are never
reused or decremented; the first call's envelope carries id 1, but the
Nth call's id in general exceeds N because `initialize_session` draws ids
from the same counter. -/
theorem request_ids_strictly_increase (envs : List CallEnv) :
    (callOutputs initialClient envs).Pairwise
      (fun a b => a.toolEnvelopeId < b.toolEnvelopeId) ∧
    (∀ e rest, envs = e :: rest → (call_tool initialClient e).toolEnvelopeId = 1) := by
  refine ⟨callOutputs_pairwise envs initialClient, ?_⟩
  intro e rest h
  exact call_tool_toolEnvelopeId initialClient e

/-- Witness for C2 (amended) at a concrete two-call run. -/
theorem request_ids_strictly_increase_witness :
    (call_tool initialClient envSession).toolEnvelopeId = 1 ∧
    (call_tool initialClient envSession).toolEnvelopeId
      < (call_tool (call_tool initialClient envSession).state envSession).toolEnvelopeId := by
  have h := request_ids_strictly_increase [envSession, envSession]
  refine ⟨h.2 envSession [envSession] rfl, ?_⟩
  have hp := h.1
  simp only [callOutputs] at hp
  rw [List.pairwise_cons] at hp
  have hm : call_tool (call_tool initialClient envSession).state envSession
      ∈ callOutputs (call_tool initialClient envSession).state [envSession] := by
    simp [callOutputs]
  exact hp.1 _ hm

/-- C9: the request-id counter is incremented before the tool envelope is
stamped (the envelope carries the entry counter plus one), the increment
survives every outcome — the environment `e1` is arbitrary, including
transport failures, protocol errors and framing errors — and the next
call therefore uses a strictly larger envelope id. -/
theorem request_id_consumed_permanently (st : ClientState) (e1 e2 : CallEnv) :
    (call_tool st e1).toolEnvelopeId = st.request_id + 1 ∧
    st.request_id + 1 ≤ (call_tool st e1).state.request_id ∧
    (call_tool st e1).toolEnvelopeId
      < (call_tool (call_tool st e1).state e2).toolEnvelopeId := by
  refine ⟨call_tool_toolEnvelopeId st e1, call_tool_request_id_lower st e1, ?_⟩
  have h1 := call_tool_toolEnvelopeId st e1
  have h2 := call_tool_request_id_lower st e1
  have h3 := call_tool_toolEnvelopeId (call_tool st e1).state e2
  omega

/-- C8: `close` is idempotent and safe in every client state: when no
connection was ever opened it is a no-op, a second call finds the handle
already cleared, and after any `close` the handle is cleared. -/
theorem close_idempotent_safe (st : ClientState) :
    (st.http_client = false → close st = st) ∧
    close (close st) = close st ∧
    (close st).http_client = false := by
  refine ⟨?_, ?_, ?_⟩
  · intro h
    simp [close, h]
  · cases h : st.http_client with
    | true => simp [close, h]
    | false => simp [close, h]
  · cases h : st.http_client with
    | true => simp [close, h]
    | false => simp [close, h]

/-- Witness for C8 on a never-opened client. -/
theorem close_idempotent_safe_witness :
    initialClient.http_client = false ∧ close initialClient = initialClient :=
  ⟨rfl, (close_idempotent_safe initialClient).1 rfl⟩

/-- C3 counterexample: a non-2xx initialization response that carries an
`mcp-session-id` header raises the transport error but nevertheless sets
`session_id` — the header is read (line 83) before `raise_for_status()`
(line 90) — so "a failed initialization leaves the session state
unchanged (session_id remains unset)" is false at status 500 with header
`mcp-session-id: abc`. -/
theorem init_failure_sets_session_counterexample :
    (initialize_session initialClient (TransportResult.resp respInit500WithSession)).2
      = Except.error (PyExc.httpErr (some 500)) ∧
    (initialize_session initialClient (TransportResult.resp respInit500WithSession)).1.session_id
      = some "abc" ∧
    some "abc" ≠ (none : Option String) := by
  exact ⟨rfl, rfl, by decide⟩

/-- C3 (amended): a non-2xx initialization response raises a transport
error, but `session_id` is assigned from the response's `mcp-session-id`
header before the status check; the session is left unset only when the
failing response carries no such header. -/
theorem init_non2xx_transport_error (st : ClientState) (r : HttpResponse)
    (h : is2xx r.status = false) :
    (initialize_session st (TransportResult.resp r)).2
      = Except.error (PyExc.httpErr (some r.status)) ∧
    (initialize_session st (TransportResult.resp r)).1.session_id
      = headersGet r.headers "mcp-session-id" ∧
    (headersGet r.headers "mcp-session-id" = none →
      (initialize_session st (TransportResult.resp r)).1.session_id = none) := by
  refine ⟨?_, init_session_id_resp st r, ?_⟩
  · simp only [initialize_session, h]
    simp
  · intro hh
    rw [init_session_id_resp st r, hh]

/-- Witness for C3 (amended) at a headerless 500 response. -/
theorem init_non2xx_transport_error_witness :
    is2xx respInit500NoSession.status = false ∧
    (initialize_session initialClient (TransportResult.resp respInit500NoSession)).2
      = Except.error (PyExc.httpErr (some 500)) ∧
    (initialize_session initialClient (TransportResult.resp respInit500NoSession)).1.session_id
      = none := by
  have h := init_non2xx_transport_error initialClient respInit500NoSession (by decide)
  exact ⟨by decide, h.1, h.2.2 rfl⟩

/-- C7: a session token, once truthy, is never overwritten by subsequent
tool calls: every output along any run of sequential `call_tool`
invocations started with a truthy token still holds the same token
(initialization, the only assignment to `session_id`, is only triggered
while no truthy token is held). -/
theorem session_token_never_overwritten (st : ClientState) (envs : List CallEnv)
    (h : pyTruthy st.session_id = true) :
    ∀ o ∈ callOutputs st envs, o.state.session_id = st.session_id := by
  induction envs generalizing st with
  | nil => simp [callOutputs]
  | cons e rest ih =>
    intro o ho
    simp only [callOutputs, List.mem_cons] at ho
    rcases ho with rfl | hmem
    · exact call_tool_session_of_truthy st e h
    · have hs := call_tool_session_of_truthy st e h
      have h2 : pyTruthy (call_tool st e).state.session_id = true := by
        rw [hs]; exact h
      have h3 := ih (call_tool st e).state h2 o hmem
      rw [h3, hs]

/-- Witness for C7 on a client holding token "tok". -/
theorem session_token_never_overwritten_witness :
    pyTruthy (ClientState.mk 5 (some "tok") true).session_id = true ∧
    (call_tool (ClientState.mk 5 (some "tok") true) envSession).state.session_id
      = some "tok" := by
  refine ⟨by decide, ?_⟩
  have h := session_token_never_overwritten (ClientState.mk 5 (some "tok") true)
    [envSession] (by decide)
  exact h _ (by simp [callOutputs])

/-- C4 counterexample: against a server that never returns a session
header, `initialize_session` is triggered on the first AND on the second
call (both calls still succeed), so "call_tool triggers
initialize_session exactly once over the lifetime of one client
instance" is false for this two-call run. -/
theorem init_triggered_twice_counterexample :
    (call_tool initialClient envNoSession).initCalled = true ∧
    (call_tool (call_tool initialClient envNoSession).state envNoSession).initCalled = true ∧
    (call_tool (call_tool initialClient envNoSession).state envNoSession).result
      = Except.ok (Json.obj [("result", Json.num 1)]) := by
  exact ⟨rfl, rfl, rfl⟩

/-- What `noSessionOkEnv` guarantees, in destructured form. -/
theorem noSessionOkEnv_spec (e : CallEnv) (he : noSessionOkEnv e = true) :
    (∃ ri, e.initRes = TransportResult.resp ri ∧ is2xx ri.status = true ∧
      headersGet ri.headers "mcp-session-id" = none) ∧
    (∃ rt fields, e.toolRes = TransportResult.resp rt ∧ is2xx rt.status = true ∧
      dispatchBody rt = some (Json.obj fields) ∧ dictLookup fields "error" = none) := by
  constructor
  · cases hi : e.initRes with
    | netFail => simp [noSessionOkEnv, hi] at he
    | resp r =>
      refine ⟨r, rfl, ?_, ?_⟩
      · simp only [noSessionOkEnv, hi, Bool.and_eq_true] at he
        exact he.1.1
      · simp only [noSessionOkEnv, hi, Bool.and_eq_true, Option.isNone_iff_eq_none] at he
        exact he.1.2
  · cases ht : e.toolRes with
    | netFail =>
      simp only [noSessionOkEnv, ht, Bool.and_eq_true, goodToolResp] at he
      exact absurd he.2 (by decide)
    | resp r =>
      have hg : goodToolResp (TransportResult.resp r) = true := by
        simp only [noSessionOkEnv, ht, Bool.and_eq_true] at he
        exact he.2
      cases hd : dispatchBody r with
      | none => simp [goodToolResp, hd] at hg
      | some j =>
        cases j with
        | obj fields =>
          simp only [goodToolResp, hd, Bool.and_eq_true, Option.isNone_iff_eq_none] at hg
          exact ⟨r, fields, rfl, hg.1, hd, hg.2⟩
        | null => simp [goodToolResp, hd] at hg
        | bool b => simp [goodToolResp, hd] at hg
        | num n => simp [goodToolResp, hd] at hg
        | str s => simp [goodToolResp, hd] at hg
        | arr xs => simp [goodToolResp, hd] at hg

/-- One `call_tool` step against a `noSessionOkEnv` environment, starting
with a falsy session token: initialization runs, the session stays
`none`, and the call returns the parsed envelope. -/
theorem call_tool_noSession_step (st : ClientState) (e : CallEnv)
    (h : pyTruthy st.session_id = false) (he : noSessionOkEnv e = true) :
    (call_tool st e).initCalled = true ∧
    (call_tool st e).state.session_id = none ∧
    (∃ j, (call_tool st e).result = Except.ok j) := by
  obtain ⟨⟨ri, hri, hi2, hihdr⟩, ⟨rt, fields, hrt, ht2, hdisp, herr⟩⟩ := noSessionOkEnv_spec e he
  have hinit : initialize_session { st with request_id := st.request_id + 1 } e.initRes
      = ({ st with
            request_id := st.request_id + 1 + 1,
            session_id := headersGet ri.headers "mcp-session-id",
            http_client := true }, Except.ok ()) := by
    rw [hri]
    simp only [initialize_session, hi2, if_true]
  have hred : call_tool st e
      = call_tool_exchange
          { st with
              request_id := st.request_id + 1 + 1,
              session_id := headersGet ri.headers "mcp-session-id",
              http_client := true }
          e.toolRes (st.request_id + 1) true := by
    simp only [call_tool, h, Bool.false_eq_true, if_false, hinit]
  rw [hred, hrt]
  simp only [call_tool_exchange, ht2, if_true, hdisp]
  refine ⟨by trivial, by simp [hihdr], ?_⟩
  simp only [checkErrorField, herr]
  exact ⟨Json.obj fields, rfl⟩

/-- C4 (amended): `call_tool` triggers `initialize_session` exactly when
no truthy session token is held at the start of the call — hence at most
once per call, and once a token is stored no later call re-initializes —
while against a compliant server that never returns a session header,
`session_id` remains unset along the whole run and every call still
succeeds (initialization re-running on each call). -/
theorem lazy_init_per_call (st : ClientState) (e : CallEnv) (envs : List CallEnv)
    (hall : ∀ e2 ∈ envs, noSessionOkEnv e2 = true) :
    (call_tool st e).initCalled = !(pyTruthy st.session_id) ∧
    (∀ o ∈ callOutputs initialClient envs,
      o.initCalled = true ∧ o.state.session_id = none ∧
      ∃ j, o.result = Except.ok j) := by
  refine ⟨call_tool_initCalled st e, ?_⟩
  have key : ∀ (envs2 : List CallEnv) (st2 : ClientState),
      pyTruthy st2.session_id = false →
      (∀ e2 ∈ envs2, noSessionOkEnv e2 = true) →
      ∀ o ∈ callOutputs st2 envs2,
        o.initCalled = true ∧ o.state.session_id = none ∧
        ∃ j, o.result = Except.ok j := by
    intro envs2
    induction envs2 with
    | nil => intro st2 _ _ o ho; simp [callOutputs] at ho
    | cons e2 rest ih =>
      intro st2 hf hall2 o ho
      have hstep := call_tool_noSession_step st2 e2 hf
        (hall2 e2 (List.mem_cons_self e2 rest))
      simp only [callOutputs, List.mem_cons] at ho
      rcases ho with rfl | hmem
      · exact hstep
      · have hf2 : pyTruthy (call_tool st2 e2).state.session_id = false := by
          rw [hstep.2.1]; rfl
        exact ih (call_tool st2 e2).state hf2
          (fun e3 h3 => hall2 e3 (List.mem_cons_of_mem e2 h3)) o hmem
  exact key envs initialClient rfl hall

/-- Witness for C4 (amended) at a concrete two-call headerless run. -/
theorem lazy_init_per_call_witness :
    (call_tool initialClient envNoSession).initCalled = true ∧
    (call_tool initialClient envNoSession).state.session_id = none := by
  have h := lazy_init_per_call initialClient envNoSession
    [envNoSession, envNoSession] (by decide)
  have hm : call_tool initialClient envNoSession
      ∈ callOutputs initialClient [envNoSession, envNoSession] := by
    simp [callOutputs]
  obtain ⟨hic, hs, _⟩ := h.2 _ hm
  exact ⟨hic, hs⟩

/-- Reduction of `call_tool` under a truthy session token: the call is
exactly the tool exchange, with no initialization. -/
theorem call_tool_truthy_red (st : ClientState) (e : CallEnv)
    (hs : pyTruthy st.session_id = true) :
    call_tool st e
      = call_tool_exchange { st with request_id := st.request_id + 1 }
          e.toolRes (st.request_id + 1) false := by
  simp only [call_tool, hs, if_true]

/-- C6: for a parsed response envelope (an object), if it contains an
`error` field holding a numeric code and a message, `call_tool` raises a
`ValueError` carrying exactly that code and message and returns no
result; otherwise the full parsed envelope — all fields, not just
`result` — is returned unchanged. -/
theorem protocol_error_or_envelope (st : ClientState) (env : CallEnv)
    (r : HttpResponse) (fields : List (String × Json))
    (hs : pyTruthy st.session_id = true)
    (ht : env.toolRes = TransportResult.resp r)
    (h2 : is2xx r.status = true)
    (hp : dispatchBody r = some (Json.obj fields)) :
    (∀ efields code msg,
      dictLookup fields "error" = some (Json.obj efields) →
      dictLookup efields "code" = some (Json.num code) →
      dictLookup efields "message" = some (Json.str msg) →
      (call_tool st env).result
        = Except.error (PyExc.valueErr
            ("JSON-RPC Error " ++ toString code ++ ": " ++ msg))) ∧
    (dictLookup fields "error" = none →
      (call_tool st env).result = Except.ok (Json.obj fields)) := by
  rw [call_tool_truthy_red st env hs, ht]
  simp only [call_tool_exchange, h2, if_true, hp]
  constructor
  · intro efields code msg herr hcode hmsg
    simp only [checkErrorField, herr, hcode, hmsg]
    rfl
  · intro herr
    simp only [checkErrorField, herr]

/-- Witness for C6: the spec's `-32601` scenario raises the formatted
`ValueError` and the no-error scenario returns the whole envelope. -/
theorem protocol_error_or_envelope_witness :
    (call_tool sessionClient ⟨TransportResult.netFail, TransportResult.resp respToolErr⟩).result
      = Except.error (PyExc.valueErr "JSON-RPC Error -32601: Method not found") ∧
    (call_tool sessionClient ⟨TransportResult.netFail, TransportResult.resp respToolOk⟩).result
      = Except.ok (Json.obj [("result", Json.num 1)]) := by
  constructor
  · exact (protocol_error_or_envelope sessionClient
        ⟨TransportResult.netFail, TransportResult.resp respToolErr⟩
        respToolErr errEnvelopeFields (by decide) rfl (by decide) rfl).1
      [("code", Json.num (-32601)), ("message", Json.str "Method not found")]
      (-32601) "Method not found" rfl rfl rfl
  · exact (protocol_error_or_envelope sessionClient
        ⟨TransportResult.netFail, TransportResult.resp respToolOk⟩
        respToolOk [("result", Json.num 1)] (by decide) rfl (by decide) rfl).2 rfl

/-- C1: the three failure kinds of `call_tool` are raised as mutually
distinguishable exception classes: transport failures (network-level
failure or non-2xx status) raise `httpx.HTTPError`, a populated `error`
field raises `ValueError`, and a declared event-stream (or JSON body)
whose payload does not parse raises `json.JSONDecodeError`; the three
classes are pairwise distinct, so a caller can tell each kind apart. -/
theorem error_kinds_distinguishable (st : ClientState) (env : CallEnv)
    (hs : pyTruthy st.session_id = true) :
    (env.toolRes = TransportResult.netFail →
      (call_tool st env).result = Except.error (PyExc.httpErr none) ∧
      (PyExc.httpErr none).cls = PyExcClass.cHTTPError) ∧
    (∀ r, env.toolRes = TransportResult.resp r → is2xx r.status = false →
      (call_tool st env).result = Except.error (PyExc.httpErr (some r.status)) ∧
      (PyExc.httpErr (some r.status)).cls = PyExcClass.cHTTPError) ∧
    (∀ r, env.toolRes = TransportResult.resp r → is2xx r.status = true →
      dispatchBody r = none →
      (call_tool st env).result = Except.error PyExc.jsonDecodeErr ∧
      PyExc.jsonDecodeErr.cls = PyExcClass.cJSONDecodeError) ∧
    (∀ r fields efields, env.toolRes = TransportResult.resp r →
      is2xx r.status = true → dispatchBody r = some (Json.obj fields) →
      dictLookup fields "error" = some (Json.obj efields) →
      ∃ msg, (call_tool st env).result = Except.error (PyExc.valueErr msg) ∧
        (PyExc.valueErr msg).cls = PyExcClass.cValueError) ∧
    (PyExcClass.cHTTPError ≠ PyExcClass.cValueError ∧
      PyExcClass.cValueError ≠ PyExcClass.cJSONDecodeError ∧
      PyExcClass.cHTTPError ≠ PyExcClass.cJSONDecodeError) := by
  rw [call_tool_truthy_red st env hs]
  refine ⟨?_, ?_, ?_, ?_, by decide, by decide, by decide⟩
  · intro ht
    rw [ht]
    exact ⟨rfl, rfl⟩
  · intro r ht h2
    rw [ht]
    simp only [call_tool_exchange, h2, Bool.false_eq_true, if_false]
    constructor <;> trivial
  · intro r ht h2 hd
    rw [ht]
    simp only [call_tool_exchange, h2, if_true, hd]
    constructor <;> trivial
  · intro r fields efields ht h2 hd herr
    rw [ht]
    simp only [call_tool_exchange, h2, if_true, hd, checkErrorField, herr]
    exact ⟨_, rfl, rfl⟩

/-- Witness for C1: concrete transport, framing, and protocol failures on
one client, each raising its own class. -/
theorem error_kinds_distinguishable_witness :
    (call_tool sessionClient ⟨TransportResult.netFail, TransportResult.netFail⟩).result
      = Except.error (PyExc.httpErr none) ∧
    (call_tool sessionClient
        ⟨TransportResult.netFail, TransportResult.resp respToolMalformedSse⟩).result
      = Except.error PyExc.jsonDecodeErr ∧
    (call_tool sessionClient
        ⟨TransportResult.netFail, TransportResult.resp respToolErr⟩).result
      = Except.error (PyExc.valueErr "JSON-RPC Error -32601: Method not found") ∧
    PyExcClass.cHTTPError ≠ PyExcClass.cValueError := by
  have h1 := (error_kinds_distinguishable sessionClient
      ⟨TransportResult.netFail, TransportResult.netFail⟩ (by decide)).1 rfl
  have h2 := (error_kinds_distinguishable sessionClient
      ⟨TransportResult.netFail, TransportResult.resp respToolMalformedSse⟩
      (by decide)).2.2.1 respToolMalformedSse rfl (by decide) rfl
  have h3 := (error_kinds_distinguishable sessionClient
      ⟨TransportResult.netFail, TransportResult.resp respToolErr⟩
      (by decide)).2.2.2.1 respToolErr errEnvelopeFields
      [("code", Json.num (-32601)), ("message", Json.str "Method not found")]
      rfl (by decide) rfl rfl
  obtain ⟨msg, hmsg, hcls⟩ := h3
  have hmsgval : msg = "JSON-RPC Error -32601: Method not found" := by
    have hcomp : (call_tool sessionClient
        ⟨TransportResult.netFail, TransportResult.resp respToolErr⟩).result
        = Except.error (PyExc.valueErr "JSON-RPC Error -32601: Method not found") := rfl
    rw [hmsg] at hcomp
    injection hcomp with h4
    injection h4
  refine ⟨h1.1, h2.1, ?_, by decide⟩
  rw [← hmsgval]
  exact hmsg

/-- C10: response-format dispatch is a substring test on the content-type
header: the SSE branch (`_parse_sse_response`) is taken exactly when the
header value contains `"text/event-stream"`, an absent content-type
header defaults to the empty string and takes the plain-JSON branch, and
within `call_tool`'s exchange the dispatched value feeds the error check
on success and raises `json.JSONDecodeError` on parse failure. -/
theorem dispatch_substring_test (r : HttpResponse) :
    (strContains (headersGetD r.headers "content-type" "") "text/event-stream" = true →
      dispatchBody r = parse_sse_response r.body) ∧
    (strContains (headersGetD r.headers "content-type" "") "text/event-stream" = false →
      dispatchBody r = json_loads r.body) ∧
    (headersGet r.headers "content-type" = none →
      dispatchBody r = json_loads r.body) ∧
    (∀ st rid ic, is2xx r.status = true →
      (call_tool_exchange st (TransportResult.resp r) rid ic).result
        = (match dispatchBody r with
           | none => Except.error PyExc.jsonDecodeErr
           | some j => checkErrorField j)) := by
  refine ⟨?_, ?_, ?_, ?_⟩
  · intro h
    simp only [dispatchBody, h, if_true]
  · intro h
    simp only [dispatchBody, h, Bool.false_eq_true, if_false]
  · intro h
    have h2 : headersGetD r.headers "content-type" "" = "" := by
      simp only [headersGetD, h, Option.getD_none]
    simp only [dispatchBody, h2]
    have h3 : strContains "" "text/event-stream" = false := by decide
    simp only [h3, Bool.false_eq_true, if_false]
  · intro st rid ic h2
    simp only [call_tool_exchange, h2, if_true]
    cases hd : dispatchBody r with
    | none => rfl
    | some j => rfl

/-- Witness for C10: an event-stream response dispatches through the SSE
parser, and a response with no content-type header parses as plain JSON;
both land on the same parsed envelope here. -/
theorem dispatch_substring_test_witness :
    strContains (headersGetD respToolSseOk.headers "content-type" "") "text/event-stream"
      = true ∧
    dispatchBody respToolSseOk = parse_sse_response respToolSseOk.body ∧
    headersGet respToolNoContentType.headers "content-type" = none ∧
    dispatchBody respToolNoContentType = json_loads respToolNoContentType.body ∧
    is2xx respToolSseOk.status = true ∧
    (call_tool_exchange sessionClient (TransportResult.resp respToolSseOk) 1 false).result
      = Except.ok (Json.obj [("result", Json.num 1)]) := by
  refine ⟨by decide, (dispatch_substring_test respToolSseOk).1 (by decide), rfl,
    (dispatch_substring_test respToolNoContentType).2.2.1 rfl, by decide, ?_⟩
  have h := (dispatch_substring_test respToolSseOk).2.2.2 sessionClient 1 false (by decide)
  rw [h]
  rfl

/-- A newline-free character list splits into a single line. -/
theorem splitOnNl_no_nl (l : List Char) (h : '\n' ∉ l) : splitOnNl l = [l] := by
  induction l with
  | nil => rfl
  | cons c cs ih =>
    have hc : ¬ c = '\n' := fun hh => h (hh ▸ List.mem_cons_self c cs)
    have hcs : '\n' ∉ cs := fun hh => h (List.mem_cons_of_mem c hh)
    simp only [splitOnNl]
    rw [ih hcs]
    simp [hc]

/-- A list is a Boolean prefix of itself followed by anything. -/
theorem isPrefixOf_append_self (l t : List Char) : l.isPrefixOf (l ++ t) = true := by
  rw [List.isPrefixOf_iff_prefix]
  exact List.prefix_append l t

/-- Stripping leaves `"data: " ++ D` untouched when the document's last
character is not whitespace. -/
theorem pyStrip_marker_append (D : List Char)
    (hlast : isPySpace (D.getLastD ' ') = false) :
    pyStripChars (dataMarker ++ D) = dataMarker ++ D := by
  have hD : D ≠ [] := by
    intro h
    rw [h] at hlast
    exact absurd hlast (by decide)
  obtain ⟨c, t, hrev⟩ : ∃ c t, D.reverse = c :: t := by
    cases hr : D.reverse with
    | nil => exact absurd (List.reverse_eq_nil_iff.mp hr) hD
    | cons c t => exact ⟨c, t, rfl⟩
  have hc : isPySpace c = false := by
    have h1 : D.getLast? = some c := by
      rw [← List.head?_reverse, hrev]
      rfl
    have h2 : D.getLastD ' ' = c := by
      rw [List.getLastD_eq_getLast?, h1]
      rfl
    rw [h2] at hlast
    exact hlast
  have hfront : (dataMarker ++ D).dropWhile isPySpace = dataMarker ++ D := by
    rw [dataMarker_eq, List.cons_append, List.dropWhile_cons, if_neg (by decide)]
  have hback : (dataMarker ++ D).reverse.dropWhile isPySpace = (dataMarker ++ D).reverse := by
    rw [List.reverse_append, hrev, List.cons_append, List.dropWhile_cons,
      if_neg (by simp [hc])]
  simp only [pyStripChars]
  rw [hfront, hback, List.reverse_reverse]

/-- The SSE extraction of a single-line frame `"data: " ++ D` recovers
`D`, provided `D` has no newline and does not end in whitespace. -/
theorem sse_data_marker_append (D : List Char)
    (hnl : '\n' ∉ D) (hlast : isPySpace (D.getLastD ' ') = false) :
    sseDataChars (dataMarker ++ D) = D := by
  have hstrip := pyStrip_marker_append D hlast
  have hnl2 : '\n' ∉ dataMarker ++ D := by
    intro h
    rcases List.mem_append.mp h with h1 | h2
    · rw [dataMarker_eq] at h1
      exact absurd h1 (by decide)
    · exact hnl h2
  simp only [sseDataChars, hstrip]
  rw [splitOnNl_no_nl _ hnl2]
  simp only [List.filter, isPrefixOf_append_self, List.map]
  rw [show (6 : Nat) = dataMarker.length from rfl, List.drop_left]
  simp

/-- C5: `_parse_sse_response` concatenates the suffixes of all
`"data: "`-prefixed lines, in order, into one string (`parse_sse_data`)
and parses that as JSON; consequently any well-formed multi-line frame
whose data suffixes concatenate to a compact JSON document `D` (no
newline, not ending in whitespace) parses to the same document as the
single-line frame `"data: " ++ D`. -/
theorem sse_multiline_singleline (sse_text D : String)
    (hD : parse_sse_data sse_text = D)
    (hnl : '\n' ∉ D.data)
    (hlast : isPySpace (D.data.getLastD ' ') = false) :
    parse_sse_response sse_text = json_loads D ∧
    parse_sse_response ("data: " ++ D) = json_loads D ∧
    parse_sse_response sse_text = parse_sse_response ("data: " ++ D) := by
  have h1 : parse_sse_response sse_text = json_loads D := by
    simp only [parse_sse_response, hD]
  have h2 : parse_sse_data ("data: " ++ D) = D := by
    simp only [parse_sse_data, String.data_append]
    rw [← dataMarker_eq, sse_data_marker_append D.data hnl hlast]
  have h3 : parse_sse_response ("data: " ++ D) = json_loads D := by
    simp only [parse_sse_response, h2]
  exact ⟨h1, h3, by rw [h1, h3]⟩

/-- Witness for C5 at a concrete two-line frame and its compact
single-line equivalent. -/
theorem sse_multiline_singleline_witness :
    parse_sse_data sseMultiBody = sseCompactDoc ∧
    parse_sse_response sseMultiBody = parse_sse_response ("data: " ++ sseCompactDoc) ∧
    parse_sse_response sseMultiBody
      = some (Json.obj [("a", Json.num 1), ("b", Json.num 2)]) := by
  refine ⟨rfl, (sse_multiline_singleline sseMultiBody sseCompactDoc rfl
    (by decide) (by decide)).2.2, rfl⟩
